import Mathlib

/-!
Shallow embedding of the flood-monitoring core of `app.py` /
`resetar_bairros.py` (projeto-PI): the multi-factor risk scorer, the
weather-code table, the per-zone weather-driven update, the vote path, the
administrative reset, the parallel fetch fan-in, and the Open-Meteo client's
error handling.  Python dicts with a fixed key set become structures; Python
floats become rationals; Python ints become integers; the statuses and risk
tiers are kept as the literal strings used by the source.
-/

/-- Python's `dict.get(key, default)` over an association list. -/
def dict_get {α β : Type} [DecidableEq α] (l : List (α × β)) (k : α) (d : β) : β :=
  match l with
  | [] => d
  | (a, b) :: rest => if k = a then b else dict_get rest k d

/-- Entry of the `WEATHER_CODES` table: description, emoji, severity 0-5. -/
structure InfoClima where
  descricao : String
  emoji : String
  risco : Int
deriving DecidableEq, Repr

/-- The WMO weather-code table `WEATHER_CODES` of `app.py` (lines 128-157). -/
def WEATHER_CODES : List (Int × InfoClima) :=
  [ (0, ⟨"Céu limpo", "☀️", 0⟩),
    (1, ⟨"Principalmente limpo", "🌤️", 0⟩),
    (2, ⟨"Parcialmente nublado", "⛅", 0⟩),
    (3, ⟨"Nublado", "☁️", 0⟩),
    (45, ⟨"Neblina", "🌫️", 0⟩),
    (48, ⟨"Neblina com geada", "🌫️", 0⟩),
    (51, ⟨"Garoa leve", "🌦️", 1⟩),
    (53, ⟨"Garoa moderada", "🌦️", 1⟩),
    (55, ⟨"Garoa intensa", "🌧️", 2⟩),
    (56, ⟨"Garoa congelante leve", "🌨️", 1⟩),
    (57, ⟨"Garoa congelante intensa", "🌨️", 2⟩),
    (61, ⟨"Chuva leve", "🌧️", 2⟩),
    (63, ⟨"Chuva moderada", "🌧️", 3⟩),
    (65, ⟨"Chuva forte", "🌧️", 4⟩),
    (66, ⟨"Chuva congelante leve", "🌨️", 2⟩),
    (67, ⟨"Chuva congelante forte", "🌨️", 3⟩),
    (71, ⟨"Neve leve", "🌨️", 1⟩),
    (73, ⟨"Neve moderada", "🌨️", 2⟩),
    (75, ⟨"Neve forte", "❄️", 2⟩),
    (77, ⟨"Grãos de neve", "❄️", 1⟩),
    (80, ⟨"Pancadas leves", "🌦️", 2⟩),
    (81, ⟨"Pancadas moderadas", "🌧️", 3⟩),
    (82, ⟨"Pancadas violentas", "⛈️", 5⟩),
    (85, ⟨"Pancadas de neve leves", "🌨️", 2⟩),
    (86, ⟨"Pancadas de neve fortes", "❄️", 3⟩),
    (95, ⟨"Tempestade", "⛈️", 5⟩),
    (96, ⟨"Tempestade com granizo leve", "⛈️", 5⟩),
    (99, ⟨"Tempestade com granizo forte", "⛈️", 5⟩) ]

/-- Function `obter_info_weather_code` (app.py lines 160-170): `WEATHER_CODES.get(code,
default)` with the "Desconhecido" default entry of severity 0. -/
def obter_info_weather_code (code : Int) : InfoClima :=
  dict_get WEATHER_CODES code ⟨"Desconhecido", "❓", 0⟩

/-- The normalized weather reading produced by `buscar_clima_api` and consumed
by `calcular_risco_alagamento` / `atualizar_clima_todos_bairros`: the dict with
the twelve keys listed at app.py lines 455-469. -/
structure Clima where
  chuva : ℚ
  temperatura : ℚ
  probabilidade_chuva : ℚ
  precipitacao_proxima_hora : ℚ
  umidade : ℚ
  rain : ℚ
  showers : ℚ
  weather_code : Int
  weather_code_proxima_hora : Int
  precip_total_dia : ℚ
  horas_chuva : ℚ
  prob_max_dia : ℚ
deriving DecidableEq, Repr

/-- The all-zero default reading (the dict returned on both error paths of
`buscar_clima_api`, and the fallback used at app.py lines 606-611). -/
def clima_default : Clima :=
  ⟨0, 0, 0, 0, 0, 0, 0, 0, 0, 0, 0, 0⟩

/-- Function `calcular_risco_alagamento` (app.py lines 173-237): five additive factors
(current precipitation band, showers band, weather-code severity times 5,
humidity band, daily max probability band), then the tier classification. -/
def calcular_risco_alagamento (clima_data : Clima) : String × Int :=
  let pontuacao : Int :=
    (if clima_data.chuva > 20 then 40
     else if clima_data.chuva > 10 then 30
     else if clima_data.chuva > 5 then 20
     else if clima_data.chuva > 0 then 10
     else 0)
    + (if clima_data.showers > 10 then 25
       else if clima_data.showers > 5 then 15
       else if clima_data.showers > 0 then 5
       else 0)
    + (obter_info_weather_code clima_data.weather_code).risco * 5
    + (if clima_data.umidade > 90 then 10
       else if clima_data.umidade > 80 then 5
       else 0)
    + (if clima_data.prob_max_dia > 80 then 10
       else if clima_data.prob_max_dia > 60 then 5
       else 0)
  if pontuacao ≥ 60 then ("Crítico", pontuacao)
  else if pontuacao ≥ 40 then ("Alto", pontuacao)
  else if pontuacao ≥ 20 then ("Médio", pontuacao)
  else ("Baixo", pontuacao)

/-- Constant `LIMITE_VOTOS_ALAGAMENTO` (app.py line 112). -/
def LIMITE_VOTOS_ALAGAMENTO : Int := 5

/-- A monitored zone ("bairro").  The seed dicts of `resetar_bairros.py` carry
the first twelve keys; `atualizar_clima_todos_bairros` adds the remaining
weather keys, which the UI reads back with `.get(…, 0)` defaults, so absent
keys are represented here by those read defaults. -/
structure Bairro where
  id : Int
  nome : String
  lat : ℚ
  lon : ℚ
  status : String
  risco : String
  votos : Int
  chuva_real : ℚ
  temperatura : ℚ
  probabilidade_chuva : ℚ
  precipitacao_proxima_hora : ℚ
  umidade : ℚ
  rain : ℚ
  showers : ℚ
  weather_code : Int
  precip_total_dia : ℚ
  horas_chuva : ℚ
  pontuacao_risco : Int
deriving DecidableEq, Repr

/-- One seed dict of `bairros_guaruja` (resetar_bairros.py): status Normal,
risco Baixo, zero votes and zeroed weather fields. -/
def bairro_semente (id : Int) (nome : String) (lat lon : ℚ) : Bairro :=
  { id := id, nome := nome, lat := lat, lon := lon,
    status := "Normal", risco := "Baixo", votos := 0,
    chuva_real := 0, temperatura := 0, probabilidade_chuva := 0,
    precipitacao_proxima_hora := 0, umidade := 0, rain := 0, showers := 0,
    weather_code := 0, precip_total_dia := 0, horas_chuva := 0,
    pontuacao_risco := 0 }

/-- List `bairros_guaruja` (resetar_bairros.py lines 44-240): the 15 seeded zones. -/
def bairros_guaruja : List Bairro :=
  [ bairro_semente 1 "Pitangueiras" (-23.9930) (-46.2564),
    bairro_semente 2 "Enseada" (-23.9785) (-46.2289),
    bairro_semente 3 "Vicente de Carvalho" (-23.9372) (-46.3178),
    bairro_semente 4 "Santo Antônio" (-23.9890) (-46.2680),
    bairro_semente 5 "Astúrias" (-23.9988) (-46.2478),
    bairro_semente 6 "Tombo" (-24.0085) (-46.2612),
    bairro_semente 7 "Morrinhos" (-23.9520) (-46.2450),
    bairro_semente 8 "Santa Cruz dos Navegantes" (-23.9650) (-46.2520),
    bairro_semente 9 "Perequê" (-23.9580) (-46.2150),
    bairro_semente 10 "Jardim Boa Esperança" (-23.9420) (-46.3050),
    bairro_semente 11 "Jardim Progresso" (-23.9350) (-46.3100),
    bairro_semente 12 "Pae Cará" (-23.9280) (-46.2980),
    bairro_semente 13 "Jardim Las Palmas" (-23.9680) (-46.2380),
    bairro_semente 14 "Jardim Virgínia" (-23.9480) (-46.2650),
    bairro_semente 15 "Praia do Guaiúba" (-24.0150) (-46.2750) ]

/-- The per-zone body of the update loop in `atualizar_clima_todos_bairros`
(app.py lines 605-644): refresh the weather fields from the reading, then
apply the automation rule (skipped for "ALAGADO CONFIRMADO"), then store the
risk score. -/
def atualizar_bairro (bairro : Bairro) (clima : Clima) : Bairro :=
  let b :=
    { bairro with
      chuva_real := clima.chuva,
      temperatura := clima.temperatura,
      probabilidade_chuva := clima.probabilidade_chuva,
      precipitacao_proxima_hora := clima.precipitacao_proxima_hora,
      umidade := clima.umidade,
      rain := clima.rain,
      showers := clima.showers,
      weather_code := clima.weather_code,
      precip_total_dia := clima.precip_total_dia,
      horas_chuva := clima.horas_chuva }
  let nivel_risco := (calcular_risco_alagamento clima).1
  let pontuacao_risco := (calcular_risco_alagamento clima).2
  let b :=
    if b.status ≠ "ALAGADO CONFIRMADO" then
      if nivel_risco = "Crítico" then
        { b with status := "Risco Meteorológico", risco := "Crítico" }
      else if nivel_risco = "Alto" then
        { b with status := "Risco Meteorológico", risco := "Alto" }
      else if nivel_risco = "Médio" ∧ b.status = "Normal" then
        { b with status := "Atenção", risco := "Médio" }
      else b
    else b
  { b with pontuacao_risco := pontuacao_risco }

/-- A history event as inserted by `registrar_evento_historico` (app.py lines
760-780); the wall-clock `data`/`hora` columns are not modelled. -/
structure Evento where
  bairro_id : Int
  bairro_nome : String
  tipo : String
  detalhes : String
deriving DecidableEq, Repr

/-- The report-submission path (app.py lines 1113-1140): increment the vote
counter; at the threshold, confirm the flood and log one
"ALAGAMENTO_CONFIRMADO" event; below it, a Normal zone moves to Atenção.
Returns the updated zone and the list of emitted events. -/
def votar (bairro : Bairro) : Bairro × List Evento :=
  let b := { bairro with votos := bairro.votos + 1 }
  if b.votos ≥ LIMITE_VOTOS_ALAGAMENTO then
    ({ b with status := "ALAGADO CONFIRMADO", risco := "Crítico" },
     [⟨b.id, b.nome, "ALAGAMENTO_CONFIRMADO",
       "Confirmado por 5 votos da comunidade"⟩])
  else if b.status = "Normal" then
    ({ b with status := "Atenção", risco := "Médio" }, [])
  else
    (b, [])

/-- The per-zone body of the admin "Resetar Votos" loop (app.py lines 960-970):
log a "NORMALIZADO" event if the zone was confirmed, then clear it. -/
def resetar_bairro (bairro : Bairro) : Bairro × List Evento :=
  let eventos :=
    if bairro.status = "ALAGADO CONFIRMADO" then
      [(⟨bairro.id, bairro.nome, "NORMALIZADO",
         "Status resetado pelo administrador"⟩ : Evento)]
    else []
  ({ bairro with votos := 0, status := "Normal", risco := "Baixo" }, eventos)

/-- The whole admin reset loop (app.py lines 959-971) over the zone list. -/
def resetar_votos : List Bairro → List Bairro × List Evento
  | [] => ([], [])
  | b :: rest =>
    let r := resetar_bairro b
    let rs := resetar_votos rest
    (r.1 :: rs.1, r.2 ++ rs.2)

/-- Fan-in of the `ThreadPoolExecutor` loop (app.py lines 588-602): each
per-zone task either yields a reading or raises (`tarefa b = none`); a raising
task is logged and omitted, the rest are collected keyed by zone id. -/
def coletar_resultados (tarefa : Bairro → Option Clima) : List Bairro → List (Int × Clima)
  | [] => []
  | b :: rest =>
    match tarefa b with
    | some clima => (b.id, clima) :: coletar_resultados tarefa rest
    | none => coletar_resultados tarefa rest

/-- Function `atualizar_clima_todos_bairros` (app.py lines 565-646): collect the
parallel fetch results, then update every zone, substituting the all-zero
default reading for any zone id missing from the result mapping. -/
def atualizar_clima_todos_bairros (tarefa : Bairro → Option Clima)
    (dados : List Bairro) : List Bairro :=
  let resultados_clima := coletar_resultados tarefa dados
  dados.map fun bairro =>
    atualizar_bairro bairro (dict_get resultados_clima bairro.id clima_default)

/-! ### Model of `buscar_clima_api` (app.py lines 370-485)

The provider response body is modelled as a JSON value and the Python
attribute/indexing semantics used by the function are made explicit, so that
the caught exception classes (`KeyError`, `TypeError`, `IndexError`, and
`requests.RequestException` for network/timeout/HTTP-status/JSON-decode
failures) can be distinguished from the uncaught ones (`AttributeError`, from
calling `.get` on a non-dict). -/

/-- A JSON value as produced by `resposta.json()`. -/
inductive Json where
  | null : Json
  | bool : Bool → Json
  | num : ℚ → Json
  | str : String → Json
  | arr : List Json → Json
  | obj : List (String × Json) → Json

/-- The Python exceptions that can arise inside the `try` body of
`buscar_clima_api` after the request itself succeeded. -/
inductive PyErr where
  | keyError : PyErr
  | typeError : PyErr
  | indexError : PyErr
  | attributeError : PyErr
deriving DecidableEq, Repr

/-- Python `v.get(key, default)`: dict lookup with default, `AttributeError`
on any non-dict receiver. -/
def pyGet (v : Json) (key : String) (d : Json) : Except PyErr Json :=
  match v with
  | Json.obj fields => Except.ok (dict_get fields key d)
  | _ => Except.error PyErr.attributeError

/-- Python `len(v)`: defined for lists, dicts and strings, `TypeError`
otherwise. -/
def pyLen (v : Json) : Except PyErr Nat :=
  match v with
  | Json.arr xs => Except.ok xs.length
  | Json.obj fields => Except.ok fields.length
  | Json.str s => Except.ok s.length
  | _ => Except.error PyErr.typeError

/-- Python `v[i]` for a non-negative integer index: list indexing
(`IndexError` out of range), string indexing, `KeyError` for a dict missing
the integer key, `TypeError` for non-subscriptable values. -/
def pyIndex (v : Json) (i : Nat) : Except PyErr Json :=
  match v with
  | Json.arr xs =>
    match xs.get? i with
    | some x => Except.ok x
    | none => Except.error PyErr.indexError
  | Json.str s =>
    match s.data.get? i with
    | some ch => Except.ok (Json.str (String.mk [ch]))
    | none => Except.error PyErr.indexError
  | Json.obj _ => Except.error PyErr.keyError
  | _ => Except.error PyErr.typeError

/-- Python truthiness of a JSON value. -/
def pyTruthy : Json → Bool
  | Json.null => false
  | Json.bool b => b
  | Json.num q => decide (q ≠ 0)
  | Json.str s => decide (s ≠ "")
  | Json.arr [] => false
  | Json.arr (_ :: _) => true
  | Json.obj [] => false
  | Json.obj (_ :: _) => true

/-- The raw reading dict returned by `buscar_clima_api`: the twelve keys of
app.py lines 455-469, holding whatever JSON values were extracted. -/
structure ClimaJson where
  chuva : Json
  temperatura : Json
  probabilidade_chuva : Json
  precipitacao_proxima_hora : Json
  umidade : Json
  rain : Json
  showers : Json
  weather_code : Json
  weather_code_proxima_hora : Json
  precip_total_dia : Json
  horas_chuva : Json
  prob_max_dia : Json

/-- The all-zero reading dict returned on both `except` branches of
`buscar_clima_api` (app.py lines 474-478 and 481-485). -/
def clima_zerado : ClimaJson :=
  ⟨Json.num 0, Json.num 0, Json.num 0, Json.num 0, Json.num 0, Json.num 0,
   Json.num 0, Json.num 0, Json.num 0, Json.num 0, Json.num 0, Json.num 0⟩

/-- The daily-field pattern `daily.get(k, [0.0])[0] if daily.get(k) else 0.0`
(app.py lines 445-447). -/
def extrair_diario (daily : Json) (key : String) : Except PyErr Json := do
  let cond ← pyGet daily key Json.null
  if pyTruthy cond then do
    let v ← pyGet daily key (Json.arr [Json.num 0])
    pyIndex v 0
  else
    pure (Json.num 0)

/-- The hourly-field pattern `xs[hora_atual] if hora_atual < len(xs) else z`
(app.py lines 451-453). -/
def extrair_horario (xs : Json) (hora_atual : Nat) : Except PyErr Json := do
  let n ← pyLen xs
  if hora_atual < n then pyIndex xs hora_atual else pure (Json.num 0)

/-- The `try` body of `buscar_clima_api` after a successful request (app.py
lines 423-469): field extraction from the decoded JSON.  `hora_atual` is the
current Brasília hour used to index the hourly arrays. -/
def extrair_clima (dados_json : Json) (hora_atual : Nat) :
    Except PyErr ClimaJson := do
  let current ← pyGet dados_json "current" (Json.obj [])
  let hourly ← pyGet dados_json "hourly" (Json.obj [])
  let daily ← pyGet dados_json "daily" (Json.obj [])
  let precipitacao ← pyGet current "precipitation" (Json.num 0)
  let temperatura ← pyGet current "temperature_2m" (Json.num 0)
  let umidade ← pyGet current "relative_humidity_2m" (Json.num 0)
  let rain ← pyGet current "rain" (Json.num 0)
  let showers ← pyGet current "showers" (Json.num 0)
  let weather_code ← pyGet current "weather_code" (Json.num 0)
  let probabilidades ← pyGet hourly "precipitation_probability" (Json.arr [])
  let precipitacoes_hora ← pyGet hourly "precipitation" (Json.arr [])
  let weather_codes_hora ← pyGet hourly "weather_code" (Json.arr [])
  let precip_total_dia ← extrair_diario daily "precipitation_sum"
  let horas_chuva ← extrair_diario daily "precipitation_hours"
  let prob_max_dia ← extrair_diario daily "precipitation_probability_max"
  let probabilidade ← extrair_horario probabilidades hora_atual
  let precip_proxima_hora ← extrair_horario precipitacoes_hora hora_atual
  let weather_code_proxima_hora ← extrair_horario weather_codes_hora hora_atual
  pure ⟨precipitacao, temperatura, probabilidade, precip_proxima_hora, umidade,
        rain, showers, weather_code, weather_code_proxima_hora,
        precip_total_dia, horas_chuva, prob_max_dia⟩

/-- Outcome of the HTTP request in `buscar_clima_api`: `falha` covers any
`requests.RequestException` (connection error, timeout); otherwise a status
code and a decoded body (`none` = malformed JSON, whose `JSONDecodeError` is a
`RequestException` as well). -/
inductive ApiResposta where
  | falha : ApiResposta
  | resposta : Int → Option Json → ApiResposta

/-- Function `buscar_clima_api` (app.py lines 370-485): `raise_for_status` turns any
4xx/5xx status into a caught `RequestException`; `KeyError`, `TypeError` and
`IndexError` from the extraction are caught and yield the zeroed dict;
`AttributeError` is not caught and escapes to the caller. -/
def buscar_clima_api (resposta : ApiResposta) (hora_atual : Nat) :
    Except PyErr ClimaJson :=
  match resposta with
  | ApiResposta.falha => Except.ok clima_zerado
  | ApiResposta.resposta status corpo =>
    if 400 ≤ status ∧ status < 600 then Except.ok clima_zerado
    else
      match corpo with
      | none => Except.ok clima_zerado
      | some dados_json =>
        match extrair_clima dados_json hora_atual with
        | Except.ok clima => Except.ok clima
        | Except.error PyErr.keyError => Except.ok clima_zerado
        | Except.error PyErr.typeError => Except.ok clima_zerado
        | Except.error PyErr.indexError => Except.ok clima_zerado
        | Except.error PyErr.attributeError => Except.error PyErr.attributeError

/-! ### Spec-side restatement of the scorer (§4.2 of the spec)

These definitions follow the spec's wording (independent factor contributions
summed, then a step-function classification) and are compared with
`calcular_risco_alagamento`, which was translated from the source. -/

/-- Spec §4.2: current total precipitation band. -/
def pontos_precipitacao (chuva : ℚ) : Int :=
  if chuva > 20 then 40 else if chuva > 10 then 30
  else if chuva > 5 then 20 else if chuva > 0 then 10 else 0

/-- Spec §4.2: convective showers band. -/
def pontos_pancadas (showers : ℚ) : Int :=
  if showers > 10 then 25 else if showers > 5 then 15
  else if showers > 0 then 5 else 0

/-- Spec §4.2: weather-code severity contributes `severity * 5`. -/
def pontos_weather_code (code : Int) : Int :=
  (obter_info_weather_code code).risco * 5

/-- Spec §4.2: relative humidity band. -/
def pontos_umidade (umidade : ℚ) : Int :=
  if umidade > 90 then 10 else if umidade > 80 then 5 else 0

/-- Spec §4.2: daily max probability band. -/
def pontos_probabilidade (prob_max : ℚ) : Int :=
  if prob_max > 80 then 10 else if prob_max > 60 then 5 else 0

/-- Spec §4.2: the score is the sum of the five independent contributions. -/
def pontuacao_spec (clima : Clima) : Int :=
  pontos_precipitacao clima.chuva + pontos_pancadas clima.showers
  + pontos_weather_code clima.weather_code + pontos_umidade clima.umidade
  + pontos_probabilidade clima.prob_max_dia

/-- Spec §4.2: classify: score≥60 → Critical; ≥40 → High; ≥20 → Medium; else
Low (with the tier names the source uses). -/
def classificar_spec (pontuacao : Int) : String :=
  if pontuacao ≥ 60 then "Crítico"
  else if pontuacao ≥ 40 then "Alto"
  else if pontuacao ≥ 20 then "Médio"
  else "Baixo"

/-- The invariant of spec §3: a confirmed zone carries the Critical tier. -/
def Invariante (b : Bairro) : Prop :=
  b.status = "ALAGADO CONFIRMADO" → b.risco = "Crítico"

/-- The zone states reachable through the operations the source exposes:
seeding, a weather-driven update with any reading, a vote submission, and the
administrative reset. -/
inductive Alcancavel : Bairro → Prop where
  | semente (b : Bairro) (hb : b ∈ bairros_guaruja) : Alcancavel b
  | clima (b : Bairro) (c : Clima) (hb : Alcancavel b) :
      Alcancavel (atualizar_bairro b c)
  | voto (b : Bairro) (hb : Alcancavel b) : Alcancavel (votar b).1
  | reset (b : Bairro) (hb : Alcancavel b) : Alcancavel (resetar_bairro b).1

/-! ### Concrete fixtures -/

/-- A sample reading: light rain, 22 °C, 70% humidity, WMO code 61. -/
def clima_teste : Clima :=
  { clima_default with
    chuva := 3, temperatura := 22, umidade := 70, weather_code := 61 }

/-- A zone already confirmed by the community. -/
def bairro_confirmado_teste : Bairro :=
  { bairro_semente 1 "Pitangueiras" (-23.9930) (-46.2564) with
    status := "ALAGADO CONFIRMADO", risco := "Crítico", votos := 6 }

/-- A zone one report short of the confirmation threshold. -/
def bairro_atencao_teste : Bairro :=
  { bairro_semente 2 "Enseada" (-23.9785) (-46.2289) with
    status := "Atenção", risco := "Médio", votos := 4 }

/-- The first seeded zone after five report submissions. -/
def bairro_confirmado_por_votos : Bairro :=
  (votar (votar (votar (votar (votar
    (bairro_semente 1 "Pitangueiras" (-23.9930) (-46.2564))).1).1).1).1).1

/-- Three seeded zones with distinct ids. -/
def dados_teste : List Bairro :=
  [ bairro_semente 1 "Pitangueiras" (-23.9930) (-46.2564),
    bairro_semente 2 "Enseada" (-23.9785) (-46.2289),
    bairro_semente 3 "Vicente de Carvalho" (-23.9372) (-46.3178) ]

/-- A fetch stub that raises exactly for the zone with id 2. -/
def tarefa_teste (b : Bairro) : Option Clima :=
  if b.id = 2 then none else some clima_teste

/-- The "NORMALIZADO" event logged by the admin reset for one zone. -/
def evento_normalizado (b : Bairro) : Evento :=
  ⟨b.id, b.nome, "NORMALIZADO", "Status resetado pelo administrador"⟩

/-! ### Helper lemmas -/

theorem dict_get_pred {α β : Type} [DecidableEq α] (P : β → Prop)
    (l : List (α × β)) (k : α) (d : β)
    (hl : ∀ p ∈ l, P p.2) (hd : P d) : P (dict_get l k d) := by
  induction l with
  | nil => exact hd
  | cons p rest ih =>
    obtain ⟨a, b⟩ := p
    unfold dict_get
    by_cases hk : k = a
    · simpa [hk] using hl (a, b) (List.mem_cons_self _ _)
    · simp only [hk, if_false]
      exact ih fun q hq => hl q (List.mem_cons_of_mem _ hq)

theorem dict_get_not_mem {α β : Type} [DecidableEq α]
    (l : List (α × β)) (k : α) (d : β)
    (hk : k ∉ l.map Prod.fst) : dict_get l k d = d := by
  induction l with
  | nil => rfl
  | cons p rest ih =>
    obtain ⟨a, b⟩ := p
    simp only [List.map_cons, List.mem_cons] at hk
    push_neg at hk
    unfold dict_get
    simp only [hk.1, if_false]
    exact ih hk.2

theorem risco_entre_0_e_5 (code : Int) :
    0 ≤ (obter_info_weather_code code).risco ∧
      (obter_info_weather_code code).risco ≤ 5 := by
  unfold obter_info_weather_code
  exact dict_get_pred (fun info => 0 ≤ info.risco ∧ info.risco ≤ 5)
    WEATHER_CODES code ⟨"Desconhecido", "❓", 0⟩ (by decide) (by decide)

theorem classificar_par (p : Int) :
    (if p ≥ 60 then (("Crítico" : String), p)
     else if p ≥ 40 then ("Alto", p)
     else if p ≥ 20 then ("Médio", p)
     else ("Baixo", p))
      = (classificar_spec p, p) := by
  unfold classificar_spec
  split_ifs <;> rfl

theorem calcular_risco_eq_spec (clima : Clima) :
    calcular_risco_alagamento clima
      = (classificar_spec (pontuacao_spec clima), pontuacao_spec clima) := by
  simp only [calcular_risco_alagamento]
  rw [classificar_par]
  rfl

theorem nivel_risco_casos (clima : Clima) :
    (calcular_risco_alagamento clima).1 = "Crítico" ∨
    (calcular_risco_alagamento clima).1 = "Alto" ∨
    (calcular_risco_alagamento clima).1 = "Médio" ∨
    (calcular_risco_alagamento clima).1 = "Baixo" := by
  rw [calcular_risco_eq_spec]
  unfold classificar_spec
  split_ifs <;> simp

theorem atualizar_status_confirmado (b : Bairro) (clima : Clima)
    (h : b.status = "ALAGADO CONFIRMADO") :
    (atualizar_bairro b clima).status = b.status ∧
      (atualizar_bairro b clima).risco = b.risco := by
  simp [atualizar_bairro, h]

theorem atualizar_preserva_invariante (b : Bairro) (clima : Clima)
    (h : Invariante b) : Invariante (atualizar_bairro b clima) := by
  unfold Invariante at h ⊢
  by_cases hc : b.status = "ALAGADO CONFIRMADO"
  · obtain ⟨h1, h2⟩ := atualizar_status_confirmado b clima hc
    rw [h1, h2]
    exact h
  · simp only [atualizar_bairro]
    split_ifs with h1 h2 h3 h4 <;> simp_all

theorem votar_preserva_invariante (b : Bairro) (h : Invariante b) :
    Invariante (votar b).1 := by
  unfold Invariante at h ⊢
  simp only [votar]
  split_ifs with h1 h2 <;> simp_all

theorem resetar_preserva_invariante (b : Bairro) :
    Invariante (resetar_bairro b).1 := by
  unfold Invariante
  simp [resetar_bairro]

theorem semente_satisfaz_invariante : ∀ b ∈ bairros_guaruja, Invariante b := by
  unfold Invariante
  decide

theorem coletar_comprimento (tarefa : Bairro → Option Clima)
    (dados : List Bairro) :
    (coletar_resultados tarefa dados).length
      + (dados.filter fun b => (tarefa b).isNone).length = dados.length := by
  induction dados with
  | nil => rfl
  | cons b rest ih =>
    cases h : tarefa b <;>
      simp [coletar_resultados, h, List.filter_cons] <;>
      omega

theorem coletar_chaves (tarefa : Bairro → Option Clima) (dados : List Bairro) :
    (coletar_resultados tarefa dados).map Prod.fst
      = (dados.filter fun b => (tarefa b).isSome).map Bairro.id := by
  induction dados with
  | nil => rfl
  | cons b rest ih =>
    cases h : tarefa b <;>
      simp [coletar_resultados, h, List.filter_cons, ih]

theorem coletar_lookup_falha (tarefa : Bairro → Option Clima)
    (dados : List Bairro) (b : Bairro)
    (hnodup : (dados.map Bairro.id).Nodup) (hb : b ∈ dados)
    (hf : tarefa b = none) :
    dict_get (coletar_resultados tarefa dados) b.id clima_default
      = clima_default := by
  apply dict_get_not_mem
  rw [coletar_chaves]
  intro hmem
  obtain ⟨b', hb', hid⟩ := List.mem_map.mp hmem
  obtain ⟨hb'mem, hb'some⟩ := List.mem_filter.mp hb'
  have : b' = b :=
    List.inj_on_of_nodup_map hnodup hb'mem hb hid
  rw [this, hf] at hb'some
  simp at hb'some

theorem coletar_lookup_sucesso (tarefa : Bairro → Option Clima)
    (dados : List Bairro) (b : Bairro) (c : Clima)
    (hnodup : (dados.map Bairro.id).Nodup) (hb : b ∈ dados)
    (hf : tarefa b = some c) :
    dict_get (coletar_resultados tarefa dados) b.id clima_default = c := by
  induction dados with
  | nil => cases hb
  | cons a rest ih =>
    simp only [List.map_cons, List.nodup_cons] at hnodup
    rcases List.mem_cons.mp hb with hba | hbrest
    · subst hba
      simp [coletar_resultados, hf, dict_get]
    · have hbid : b.id ≠ a.id := by
        intro he
        exact hnodup.1 (he ▸ List.mem_map_of_mem Bairro.id hbrest)
      cases h : tarefa a with
      | none =>
        simp only [coletar_resultados, h]
        exact ih hnodup.2 hbrest
      | some ca =>
        simp only [coletar_resultados, h, dict_get, hbid, if_false]
        exact ih hnodup.2 hbrest

/-! ### Claim theorems -/

/-- C1: for every reading the risk scorer returns the sum of the five
independent factor contributions of the spec (precipitation band, showers
band, weather-code severity times 5, humidity band, daily max probability
band) together with the ≥60/≥40/≥20 tier classification, and the reading with
chuva=25, showers=0, weather_code=0, umidade=50, prob_max_dia=0 scores 40 with
tier High ("Alto"). -/
theorem c1_risco_cinco_fatores :
    (∀ clima : Clima,
      calcular_risco_alagamento clima
        = (classificar_spec (pontuacao_spec clima), pontuacao_spec clima))
    ∧ calcular_risco_alagamento
        { clima_default with chuva := 25, umidade := 50 } = ("Alto", 40) :=
  ⟨calcular_risco_eq_spec, by decide⟩

/-- C2: a weather-driven update of a zone whose status is "ALAGADO CONFIRMADO"
leaves `status` and `risco` unchanged, while the numeric weather fields and
the stored risk score are still refreshed from the reading. -/
theorem c2_confirmado_protegido (b : Bairro) (clima : Clima)
    (h : b.status = "ALAGADO CONFIRMADO") :
    (atualizar_bairro b clima).status = b.status
    ∧ (atualizar_bairro b clima).risco = b.risco
    ∧ (atualizar_bairro b clima).chuva_real = clima.chuva
    ∧ (atualizar_bairro b clima).umidade = clima.umidade
    ∧ (atualizar_bairro b clima).pontuacao_risco
        = (calcular_risco_alagamento clima).2 := by
  simp [atualizar_bairro, h]

/-- Witness for C2 at a concrete confirmed zone and reading. -/
theorem c2_confirmado_protegido_inst :
    (atualizar_bairro bairro_confirmado_teste clima_teste).status
        = bairro_confirmado_teste.status
    ∧ (atualizar_bairro bairro_confirmado_teste clima_teste).risco
        = bairro_confirmado_teste.risco
    ∧ (atualizar_bairro bairro_confirmado_teste clima_teste).chuva_real
        = clima_teste.chuva
    ∧ (atualizar_bairro bairro_confirmado_teste clima_teste).umidade
        = clima_teste.umidade
    ∧ (atualizar_bairro bairro_confirmado_teste clima_teste).pontuacao_risco
        = (calcular_risco_alagamento clima_teste).2 :=
  c2_confirmado_protegido bairro_confirmado_teste clima_teste rfl

/-- C3: "status confirmed implies risk Critical" holds for the seeded zones
and is preserved by the weather-driven update, the vote path and the admin
reset, hence holds in every reachable zone state. -/
theorem c3_invariante_alcancavel (b : Bairro) (hb : Alcancavel b) :
    b.status = "ALAGADO CONFIRMADO" → b.risco = "Crítico" := by
  induction hb with
  | semente b hbm => exact semente_satisfaz_invariante b hbm
  | clima b c _ ih => exact atualizar_preserva_invariante b c ih
  | voto b _ ih => exact votar_preserva_invariante b ih
  | reset b _ _ => exact resetar_preserva_invariante b

/-- Witness for C3: the first seeded zone after five reports is reachable,
confirmed, and indeed carries the Critical tier. -/
theorem c3_invariante_alcancavel_inst :
    bairro_confirmado_por_votos.risco = "Crítico" :=
  c3_invariante_alcancavel bairro_confirmado_por_votos
    (Alcancavel.voto _ (Alcancavel.voto _ (Alcancavel.voto _ (Alcancavel.voto _
      (Alcancavel.voto _ (Alcancavel.semente _
        (by unfold bairros_guaruja; exact List.mem_cons_self _ _)))))))
    (by decide)

/-- C4: a report submission increments the vote counter by exactly 1; at the
threshold the zone becomes "ALAGADO CONFIRMADO"/"Crítico" with exactly one
"ALAGAMENTO_CONFIRMADO" event; below the threshold a Normal zone becomes
"Atenção"/"Médio" and any other zone keeps its status, with no event; the
votes=4/Atenção scenario confirms with one event. -/
theorem c4_votar (b : Bairro) :
    (votar b).1.votos = b.votos + 1
    ∧ (b.votos + 1 ≥ LIMITE_VOTOS_ALAGAMENTO →
        (votar b).1.status = "ALAGADO CONFIRMADO" ∧ (votar b).1.risco = "Crítico"
        ∧ (votar b).2 = [⟨b.id, b.nome, "ALAGAMENTO_CONFIRMADO",
            "Confirmado por 5 votos da comunidade"⟩])
    ∧ (b.votos + 1 < LIMITE_VOTOS_ALAGAMENTO → b.status = "Normal" →
        (votar b).1.status = "Atenção" ∧ (votar b).1.risco = "Médio"
        ∧ (votar b).2 = [])
    ∧ (b.votos + 1 < LIMITE_VOTOS_ALAGAMENTO → b.status ≠ "Normal" →
        (votar b).1.status = b.status ∧ (votar b).1.risco = b.risco
        ∧ (votar b).2 = [])
    ∧ (b.votos = 4 → b.status = "Atenção" →
        (votar b).1.votos = 5 ∧ (votar b).1.status = "ALAGADO CONFIRMADO"
        ∧ (votar b).1.risco = "Crítico"
        ∧ (votar b).2 = [⟨b.id, b.nome, "ALAGAMENTO_CONFIRMADO",
            "Confirmado por 5 votos da comunidade"⟩]) := by
  simp only [votar, LIMITE_VOTOS_ALAGAMENTO]
  split_ifs with h1 h2 <;>
    refine ⟨by simp, ?_, ?_, ?_, ?_⟩ <;> intros <;> simp_all <;> omega

/-- Witness for C4: the votes=4, status=Atenção scenario at a concrete zone. -/
theorem c4_votar_inst :
    (votar bairro_atencao_teste).1.votos = 5
    ∧ (votar bairro_atencao_teste).1.status = "ALAGADO CONFIRMADO"
    ∧ (votar bairro_atencao_teste).1.risco = "Crítico"
    ∧ (votar bairro_atencao_teste).2 = [⟨2, "Enseada", "ALAGAMENTO_CONFIRMADO",
        "Confirmado por 5 votos da comunidade"⟩] :=
  (c4_votar bairro_atencao_teste).2.2.2.2 rfl rfl

/-- C5: the admin reset clears every zone to votes=0 / "Normal" / "Baixo",
emits exactly one "NORMALIZADO" event per zone that was confirmed at reset
time, and emits nothing for a zone that was Normal. -/
theorem c5_resetar (dados : List Bairro) :
    ((resetar_votos dados).1
        = dados.map fun b =>
            { b with votos := 0, status := "Normal", risco := "Baixo" })
    ∧ ((resetar_votos dados).2
        = (dados.filter fun b =>
            decide (b.status = "ALAGADO CONFIRMADO")).map evento_normalizado)
    ∧ (∀ b : Bairro, b.status = "Normal" → (resetar_bairro b).2 = []) := by
  refine ⟨?_, ?_, ?_⟩
  · induction dados with
    | nil => rfl
    | cons b rest ih => simp [resetar_votos, resetar_bairro, ih]
  · induction dados with
    | nil => rfl
    | cons b rest ih =>
      by_cases h : b.status = "ALAGADO CONFIRMADO" <;>
        simp [resetar_votos, resetar_bairro, List.filter_cons, h, ih,
          evento_normalizado]
  · intro b h
    simp [resetar_bairro, h]

/-- Witness for C5: resetting a seeded (Normal) zone emits no event. -/
theorem c5_resetar_inst :
    (resetar_bairro (bairro_semente 1 "Pitangueiras" (-23.9930) (-46.2564))).2
      = [] :=
  (c5_resetar []).2.2 _ rfl

/-- C6 counterexample: the reading with chuva=25, showers=12, weather_code=95,
umidade=95, prob_max_dia=90 scores 110, so the score is not bounded by 100. -/
theorem c6_pontuacao_excede_100 :
    (calcular_risco_alagamento
      { clima_default with
        chuva := 25, showers := 12, weather_code := 95, umidade := 95,
        prob_max_dia := 90 }).2 = 110
    ∧ ¬ ((calcular_risco_alagamento
      { clima_default with
        chuva := 25, showers := 12, weather_code := 95, umidade := 95,
        prob_max_dia := 90 }).2 ≤ 100) := by
  decide

/-- C6 amended: for every weather reading the score returned by the risk
scorer is an integer between 0 and 110 inclusive (110 = 40 + 25 + 25 + 10 +
10, the sum of the factor ceilings; the code applies no clamp at 100). -/
theorem c6_pontuacao_entre_0_e_110 (clima : Clima) :
    0 ≤ (calcular_risco_alagamento clima).2
    ∧ (calcular_risco_alagamento clima).2 ≤ 110 := by
  rw [calcular_risco_eq_spec]
  have h := risco_entre_0_e_5 clima.weather_code
  unfold pontuacao_spec pontos_precipitacao pontos_pancadas pontos_weather_code
    pontos_umidade pontos_probabilidade
  split_ifs <;> omega

/-- C7: with per-zone fetch outcomes given by `tarefa` (`none` = the worker
raised), the fan-in collects exactly one entry per non-failing zone — so
`Z - |F|` entries in total, the failing zones not disturbing the others — and
the merge step reads the all-zero default reading for every failing zone and
the fetched reading for every successful one. -/
theorem c7_fan_in (tarefa : Bairro → Option Clima) (dados : List Bairro)
    (hnodup : (dados.map Bairro.id).Nodup) :
    ((coletar_resultados tarefa dados).length
        + (dados.filter fun b => (tarefa b).isNone).length = dados.length)
    ∧ ((coletar_resultados tarefa dados).map Prod.fst
        = (dados.filter fun b => (tarefa b).isSome).map Bairro.id)
    ∧ (∀ b ∈ dados, tarefa b = none →
        dict_get (coletar_resultados tarefa dados) b.id clima_default
          = clima_default)
    ∧ (∀ b ∈ dados, ∀ c, tarefa b = some c →
        dict_get (coletar_resultados tarefa dados) b.id clima_default = c)
    ∧ atualizar_clima_todos_bairros tarefa dados
        = dados.map fun b =>
            atualizar_bairro b
              (dict_get (coletar_resultados tarefa dados) b.id clima_default) :=
  ⟨coletar_comprimento tarefa dados, coletar_chaves tarefa dados,
   fun b hb hf => coletar_lookup_falha tarefa dados b hnodup hb hf,
   fun b hb c hf => coletar_lookup_sucesso tarefa dados b c hnodup hb hf,
   rfl⟩

/-- Witness for C7: three zones, the fetch failing exactly for id 2. -/
theorem c7_fan_in_inst :
    ((coletar_resultados tarefa_teste dados_teste).length
        + (dados_teste.filter fun b => (tarefa_teste b).isNone).length
        = dados_teste.length)
    ∧ dict_get (coletar_resultados tarefa_teste dados_teste)
        (bairro_semente 2 "Enseada" (-23.9785) (-46.2289)).id clima_default
        = clima_default := by
  have h := c7_fan_in tarefa_teste dados_teste (by decide)
  exact ⟨h.1, h.2.2.1 _
    (by unfold dados_teste
        exact List.mem_cons_of_mem _ (List.mem_cons_self _ _)) rfl⟩

/-- C8 counterexample: a status-200 response whose JSON body is an array makes
`buscar_clima_api` raise `AttributeError` to its caller (`.get` on a
non-dict), so the fetch is not total over malformed responses. -/
theorem c8_buscar_clima_levanta :
    buscar_clima_api (ApiResposta.resposta 200 (some (Json.arr []))) 0
      = Except.error PyErr.attributeError := rfl

/-- C8 amended: the fetch returns the all-zero reading on a network
failure/timeout, on a 4xx/5xx HTTP status, and on a malformed (undecodable)
JSON body; on any other input it either returns a complete reading — the
caught `KeyError`/`TypeError`/`IndexError` cases also yield the zeroed
reading — or raises `AttributeError`, which the source does not catch. -/
theorem c8_buscar_clima_fallback :
    (∀ hora, buscar_clima_api ApiResposta.falha hora = Except.ok clima_zerado)
    ∧ (∀ s corpo hora, 400 ≤ s → s < 600 →
        buscar_clima_api (ApiResposta.resposta s corpo) hora
          = Except.ok clima_zerado)
    ∧ (∀ s hora, ¬ (400 ≤ s ∧ s < 600) →
        buscar_clima_api (ApiResposta.resposta s none) hora
          = Except.ok clima_zerado)
    ∧ (∀ dados_json hora s, ¬ (400 ≤ s ∧ s < 600) →
        (extrair_clima dados_json hora = Except.error PyErr.keyError
          ∨ extrair_clima dados_json hora = Except.error PyErr.typeError
          ∨ extrair_clima dados_json hora = Except.error PyErr.indexError) →
        buscar_clima_api (ApiResposta.resposta s (some dados_json)) hora
          = Except.ok clima_zerado)
    ∧ (∀ resposta hora, (∃ c, buscar_clima_api resposta hora = Except.ok c)
        ∨ buscar_clima_api resposta hora = Except.error PyErr.attributeError) := by
  refine ⟨fun hora => rfl, ?_, ?_, ?_, ?_⟩
  · intro s corpo hora h1 h2
    simp [buscar_clima_api, h1, h2]
  · intro s hora h
    simp [buscar_clima_api, h]
  · intro dados_json hora s hs he
    rcases he with he | he | he <;> simp [buscar_clima_api, hs, he]
  · intro resposta hora
    cases resposta with
    | falha => exact Or.inl ⟨clima_zerado, rfl⟩
    | resposta s corpo =>
      by_cases hs : 400 ≤ s ∧ s < 600
      · exact Or.inl ⟨clima_zerado, by simp [buscar_clima_api, hs]⟩
      · cases corpo with
        | none => exact Or.inl ⟨clima_zerado, by simp [buscar_clima_api, hs]⟩
        | some dados_json =>
          cases he : extrair_clima dados_json hora with
          | ok c => exact Or.inl ⟨c, by simp [buscar_clima_api, hs, he]⟩
          | error e =>
            cases e with
            | keyError =>
              exact Or.inl ⟨clima_zerado, by simp [buscar_clima_api, hs, he]⟩
            | typeError =>
              exact Or.inl ⟨clima_zerado, by simp [buscar_clima_api, hs, he]⟩
            | indexError =>
              exact Or.inl ⟨clima_zerado, by simp [buscar_clima_api, hs, he]⟩
            | attributeError =>
              exact Or.inr (by simp [buscar_clima_api, hs, he])

/-- Witness for C8: a 404 response yields the zeroed reading, and so does a
200 response whose "precipitation_sum" daily field is a bare number — its
extraction raises `TypeError` (`5[0]`), which the source catches. -/
theorem c8_buscar_clima_fallback_inst :
    buscar_clima_api (ApiResposta.resposta 404 none) 0
        = Except.ok clima_zerado
    ∧ buscar_clima_api
        (ApiResposta.resposta 200 (some (Json.obj
          [("daily", Json.obj [("precipitation_sum", Json.num 5)])]))) 0
        = Except.ok clima_zerado :=
  ⟨c8_buscar_clima_fallback.2.1 404 none 0 (by decide) (by decide),
   c8_buscar_clima_fallback.2.2.2.1
     (Json.obj [("daily", Json.obj [("precipitation_sum", Json.num 5)])])
     0 200 (by decide) (Or.inr (Or.inl rfl))⟩

/-- C9: for a zone not in "ALAGADO CONFIRMADO", applying the weather-driven
update twice with the same reading gives the same zone state as applying it
once. -/
theorem c9_atualizar_idempotente (b : Bairro) (clima : Clima)
    (h : b.status ≠ "ALAGADO CONFIRMADO") :
    atualizar_bairro (atualizar_bairro b clima) clima
      = atualizar_bairro b clima := by
  rcases nivel_risco_casos clima with h1 | h1 | h1 | h1 <;>
    by_cases h2 : b.status = "Normal" <;>
      simp [atualizar_bairro, h, h1, h2]

/-- Witness for C9 at a concrete non-confirmed zone and reading. -/
theorem c9_atualizar_idempotente_inst :
    atualizar_bairro (atualizar_bairro bairro_atencao_teste clima_teste)
        clima_teste
      = atualizar_bairro bairro_atencao_teste clima_teste :=
  c9_atualizar_idempotente bairro_atencao_teste clima_teste (by decide)

/-- C10: every weather code absent from the 27-entry table maps to the
default "Desconhecido" entry with severity 0, so an unknown code contributes
exactly 0 points — scoring as if the code were 0 (clear sky) — instead of
failing the lookup. -/
theorem c10_codigo_desconhecido (code : Int)
    (h : code ∉ WEATHER_CODES.map Prod.fst) :
    obter_info_weather_code code = ⟨"Desconhecido", "❓", 0⟩
    ∧ ∀ clima : Clima, clima.weather_code = code →
        calcular_risco_alagamento clima
          = calcular_risco_alagamento { clima with weather_code := 0 } := by
  have hd : obter_info_weather_code code = ⟨"Desconhecido", "❓", 0⟩ :=
    dict_get_not_mem WEATHER_CODES code ⟨"Desconhecido", "❓", 0⟩ h
  refine ⟨hd, fun clima hc => ?_⟩
  rw [calcular_risco_eq_spec, calcular_risco_eq_spec]
  have hp : pontuacao_spec clima
      = pontuacao_spec { clima with weather_code := 0 } := by
    unfold pontuacao_spec pontos_weather_code
    rw [hc, hd]
    rfl
  rw [hp]

/-- Witness for C10: the unknown code 42. -/
theorem c10_codigo_desconhecido_inst :
    obter_info_weather_code 42 = ⟨"Desconhecido", "❓", 0⟩
    ∧ calcular_risco_alagamento { clima_default with weather_code := 42 }
        = calcular_risco_alagamento { clima_default with weather_code := 0 } := by
  have h := c10_codigo_desconhecido 42 (by decide)
  exact ⟨h.1, h.2 { clima_default with weather_code := 42 } rfl⟩
